import Mathlib

/-!
Verification of the CLASSGUARD_PRO ESP32 firmware
(`src/esp32_code/classguard_sensors/classguard_sensors.ino` together with
`src/esp32_code/config.h`).

The firmware is single-threaded polling code.  We embed its pure
computations directly (score, AQI bucket, Arduino integer `map`, the
decibel conversion over the reals), and model its stateful parts
(pin writes, the publish-interval gate of `loop`, the blocking
`connectMQTT` retry loop) as explicit state-passing functions.

Float values that may be NaN (the DHT22 temperature/humidity reads) are
modelled as `Option ℚ`, with `none` playing the role of NaN: in IEEE
arithmetic every ordered comparison against NaN is false, which is what
the firmware relies on, so the comparison helpers return `false` on
`none`.
-/

namespace ClassGuard

/-- A float sensor value that may be NaN (`none`), as produced by
`dht.readTemperature()` / `dht.readHumidity()`. -/
abbrev FQ : Type := Option ℚ

/-- IEEE-style `x > c`: false when `x` is NaN (`none`). -/
def fgt (x : FQ) (c : ℚ) : Bool :=
  match x with
  | some v => decide (c < v)
  | none => false

/-- IEEE-style `x < c`: false when `x` is NaN (`none`). -/
def flt (x : FQ) (c : ℚ) : Bool :=
  match x with
  | some v => decide (v < c)
  | none => false

/-- Constant `#define CO2_THRESHOLD 1000` (config.h). -/
def CO2_THRESHOLD : ℚ := 1000

/-- Constant `#define TEMP_THRESHOLD 35` (config.h). -/
def TEMP_THRESHOLD : ℚ := 35

/-- Constant `#define HUMIDITY_THRESHOLD 80` (config.h). -/
def HUMIDITY_THRESHOLD : ℚ := 80

/-- Constant `#define LUX_THRESHOLD 300` (config.h). -/
def LUX_THRESHOLD : ℚ := 300

/-- Constant `#define NOISE_THRESHOLD 70` (config.h). -/
def NOISE_THRESHOLD : ℚ := 70

/-- Function `int calculateClassScore(float co2, float temp, float humidity, float lux, float noise)`
(classguard_sensors.ino, lines 148-156): start at 100, subtract the five
threshold penalties, return `max(score, 0)`. -/
def calculateClassScore (co2 temp humidity lux noise : FQ) : ℤ :=
  let score : ℤ := 100
  let score : ℤ := if fgt co2 CO2_THRESHOLD then score - 20 else score
  let score : ℤ := if fgt temp TEMP_THRESHOLD then score - 15 else score
  let score : ℤ := if fgt humidity HUMIDITY_THRESHOLD then score - 10 else score
  let score : ℤ := if flt lux LUX_THRESHOLD then score - 15 else score
  let score : ℤ := if fgt noise NOISE_THRESHOLD then score - 20 else score
  max score 0

/-- Function `float calculateAQI(float co2)` (classguard_sensors.ino, lines 134-140):
5-level step function with strict less-than comparisons. -/
def calculateAQI (co2 : ℚ) : ℚ :=
  if co2 < 600 then 0
  else if co2 < 1000 then 1
  else if co2 < 1500 then 2
  else if co2 < 2000 then 3
  else 4

/-- Arduino's `long map(long x, long in_min, long in_max, long out_min, long out_max)`:
`(x - in_min) * (out_max - out_min) / (in_max - in_min) + out_min`, computed
in integer arithmetic (C++ `/` truncates; all quantities are nonnegative at
the call site in `readSensors`, where truncation and floor agree). -/
def arduinoMap (x inMin inMax outMin outMax : ℤ) : ℤ :=
  (x - inMin) * (outMax - outMin) / (inMax - inMin) + outMin

/-- The specific call `map(mq135Value, 0, 4095, 300, 10000)` from
`readSensors` (classguard_sensors.ino, line 109), on raw readings `r : ℕ`. -/
def mapCO2 (r : ℕ) : ℤ :=
  arduinoMap (r : ℤ) 0 4095 300 10000

/-- Function `String getStatusMessage(int score)` (classguard_sensors.ino, lines 158-163). -/
def getStatusMessage (score : ℤ) : String :=
  if score ≥ 80 then "Excellent"
  else if score ≥ 60 then "Good"
  else if score ≥ 40 then "Fair"
  else "Poor"

/-- A digital output level, as written by `digitalWrite`. -/
inductive PinLevel where
  | LOW
  | HIGH
deriving DecidableEq

/-- The three output pins the firmware drives: `RELAY_FAN` (GPIO 26),
`RELAY_LIGHT` (GPIO 27) and `BUZZER_PIN` (GPIO 25). -/
structure PinState where
  fan : PinLevel
  light : PinLevel
  buzzer : PinLevel
deriving DecidableEq

/-- The pin initialisation performed by `setup()` (classguard_sensors.ino,
lines 31-36): both relays driven HIGH (off, active low), buzzer driven LOW. -/
def setupPins : PinState :=
  { fan := PinLevel.HIGH, light := PinLevel.HIGH, buzzer := PinLevel.LOW }

/-- The relays are active low: the fan is logically ON when its pin is LOW. -/
def fanIsOn (s : PinState) : Bool := decide (s.fan = PinLevel.LOW)

/-- The relays are active low: the light is logically ON when its pin is LOW. -/
def lightIsOn (s : PinState) : Bool := decide (s.light = PinLevel.LOW)

/-- The buzzer is active high: it is logically ON when its pin is HIGH. -/
def buzzerIsOn (s : PinState) : Bool := decide (s.buzzer = PinLevel.HIGH)

/-- A decoded command message: each of the keys `fan`, `light`, `buzzer` may
be present (with its truthiness as a `Bool`) or absent (`none`).  This models
the `StaticJsonDocument` produced by `deserializeJson` in `controlDevices`. -/
structure Command where
  fan : Option Bool
  light : Option Bool
  buzzer : Option Bool
deriving DecidableEq

/-- Function `void controlDevices(const char* message)` (classguard_sensors.ino,
lines 192-207).  The argument is `none` when `deserializeJson` reports an
error (malformed payload): the body is skipped and no pin is written.
Otherwise each present key writes its pin: `fan`/`light` truthy drive the
relay pin LOW (active-low ON), `buzzer` truthy drives the buzzer pin HIGH. -/
def controlDevices (message : Option Command) (s : PinState) : PinState :=
  match message with
  | none => s
  | some doc =>
    let s : PinState :=
      match doc.fan with
      | some b => { s with fan := if b then PinLevel.LOW else PinLevel.HIGH }
      | none => s
    let s : PinState :=
      match doc.light with
      | some b => { s with light := if b then PinLevel.LOW else PinLevel.HIGH }
      | none => s
    match doc.buzzer with
    | some b => { s with buzzer := if b then PinLevel.HIGH else PinLevel.LOW }
    | none => s

/-- Function `void autoControlDevices()` (classguard_sensors.ino, lines 165-190),
parametrised by the sensor values it reads at its top: `temp` from
`dht.readTemperature()` (possibly NaN), `lux` from
`lightMeter.readLightLevel()`, and `noise`, the value of
`calculateNoiseLevel(analogRead(MIC_PIN))` (modelled separately over ℝ;
only its ordering against `NOISE_THRESHOLD` matters here).  Returns the new
pin state together with a flag recording whether the one-shot
`tone(BUZZER_PIN, 1000, 1000)` call fired this iteration. -/
def autoControlDevices (temp : FQ) (lux : ℚ) (noise : FQ) (s : PinState) :
    PinState × Bool :=
  let s : PinState :=
    if fgt temp TEMP_THRESHOLD then { s with fan := PinLevel.LOW }
    else { s with fan := PinLevel.HIGH }
  let s : PinState :=
    if lux < LUX_THRESHOLD then { s with light := PinLevel.LOW }
    else { s with light := PinLevel.HIGH }
  (s, fgt noise NOISE_THRESHOLD)

/-- The modulus `2^32` of the `unsigned long` arithmetic used by
`millis()` and `lastPublish`. -/
def ULONG_MOD : ℕ := 4294967296

/-- Wrapping `unsigned long` subtraction `a - b` with wraparound, as computed by
`now - lastPublish` in `loop()`. -/
def usub (a b : ℕ) : ℕ :=
  (a % ULONG_MOD + (ULONG_MOD - b % ULONG_MOD)) % ULONG_MOD

/-- Constant `const long publishInterval = 5000` (classguard_sensors.ino, line 18). -/
def publishInterval : ℕ := 5000

/-- The publish gate of `loop()` (classguard_sensors.ino, lines 68-72):
given the current `millis()` value `now`, whether the broker publish would
succeed (`publishOk`, which only affects serial logging inside
`publishSensorData`), and the stored `lastPublish`, return the new
`lastPublish` and whether a snapshot was built and published this
iteration. -/
def loopPublishGate (now : ℕ) (publishOk : Bool) (lastPublish : ℕ) :
    ℕ × Bool :=
  if usub now lastPublish ≥ publishInterval then (now, true)
  else (lastPublish, false)

/-- Constant `mqtt_client_id` from config.h, value "ESP32_CLASSGUARD_". -/
def mqtt_client_id : String := "ESP32_CLASSGUARD_"

/-- The client identifier built by one attempt of `connectMQTT`
(classguard_sensors.ino, line 211): the fixed base followed by the hex
digits of `random(0xffff)`. -/
def clientId (randomValue : ℕ) : String :=
  mqtt_client_id ++ String.mk (Nat.toDigits 16 (randomValue % 65535))

/-- The outcome of a terminating run of `connectMQTT`. -/
structure ConnectOutcome where
  attempts : ℕ
  delayMs : ℕ
  subscribed : Bool
  finalClientId : String
deriving DecidableEq

/-- Function `void connectMQTT()` (classguard_sensors.ino, lines 209-222), modelled
over the trace of its attempts: each list element is the value drawn by
`random(0xffff)` for that attempt together with whether
`mqttClient.connect` succeeds.  The loop exits after the first successful
attempt, having called `mqttClient.subscribe` on that attempt; each failed
attempt adds a `delay(2000)`.  `none` means the trace ran out before any
success: the while loop is still running (it has no attempt cap). -/
def connectMQTT : List (ℕ × Bool) → Option ConnectOutcome
  | [] => none
  | (randomValue, ok) :: rest =>
    if ok then
      some { attempts := 1, delayMs := 0, subscribed := true,
             finalClientId := clientId randomValue }
    else
      match connectMQTT rest with
      | none => none
      | some o =>
        some { o with attempts := o.attempts + 1, delayMs := o.delayMs + 2000 }

/-- The telemetry snapshot built by `readSensors` into the JSON document
(classguard_sensors.ino, lines 106-132).  `temperature` and `humidity` are
`none` when the corresponding key is omitted (NaN read). -/
structure Snapshot where
  co2 : ℚ
  aqi : ℚ
  temperature : Option ℚ
  humidity : Option ℚ
  light : ℚ
  noise : ℚ
  class_score : ℤ
  status : String
deriving DecidableEq

/-- Function `void readSensors(JsonDocument& doc)` (classguard_sensors.ino, lines
106-132), parametrised by the raw sensor values of this cycle:
`mq135Value` from `analogRead(MQ135_PIN)`, `temp`/`humidity` from the
DHT22 (`none` = NaN), `lux` from the light meter, and `noiseDB`, the value
of `calculateNoiseLevel(analogRead(MIC_PIN))` (modelled separately over ℝ;
only its threshold comparison feeds the score).  A key is written for
temperature/humidity only when the read is not NaN; the score is computed
from the raw (possibly NaN) readings. -/
def readSensors (mq135Value : ℕ) (temp humidity : FQ) (lux : ℚ)
    (noiseDB : ℚ) : Snapshot :=
  let co2_ppm : ℚ := (mapCO2 mq135Value : ℚ)
  let score : ℤ :=
    calculateClassScore (some co2_ppm) temp humidity (some lux) (some noiseDB)
  { co2 := co2_ppm
    aqi := calculateAQI co2_ppm
    temperature := temp
    humidity := humidity
    light := lux
    noise := noiseDB
    class_score := score
    status := getStatusMessage score }

/-- The `constrain(amt, low, high)` Arduino macro:
`amt < low ? low : (amt > high ? high : amt)`, over the reals. -/
noncomputable def constrainR (amt low high : ℝ) : ℝ :=
  if amt < low then low else if amt > high then high else amt

/-- Function `float calculateNoiseLevel(int micValue)` (classguard_sensors.ino,
lines 142-146), over the reals: voltage `micValue * (3.3 / 4095.0)`,
decibels `20 * log10(voltage / 0.00631)`, constrained to `[30, 120]`. -/
noncomputable def calculateNoiseLevel (micValue : ℤ) : ℝ :=
  let voltage : ℝ := (micValue : ℝ) * (3.3 / 4095)
  let noiseDB : ℝ := 20 * Real.logb 10 (voltage / 0.00631)
  constrainR noiseDB 30 120

/-- Helper: comparison against NaN is false. -/
theorem fgt_none (c : ℚ) : fgt none c = false := rfl

/-- Helper: comparison against NaN is false. -/
theorem flt_none (c : ℚ) : flt none c = false := rfl

/-- Helper: comparison of an actual value. -/
theorem fgt_some (v c : ℚ) : fgt (some v) c = decide (c < v) := rfl

/-- Helper: comparison of an actual value. -/
theorem flt_some (v c : ℚ) : flt (some v) c = decide (v < c) := rfl

/-- Helper: the integer map used for the gas sensor is the truncated linear
interpolation `r * 9700 / 4095 + 300`. -/
theorem mapCO2_eq (r : ℕ) : mapCO2 r = ((r * 9700 / 4095 : ℕ) : ℤ) + 300 := by
  simp only [mapCO2, arduinoMap]
  norm_num

/-- C1: `calculateClassScore` on non-NaN inputs starts at 100, subtracts
exactly the independent fixed penalties 20 (co2 > 1000), 15 (temp > 35),
10 (humidity > 80), 15 (lux < 300), 20 (noise > 70) and floors the result
at 0; the result is always in [0, 100], equals 20 when all five penalty
conditions hold simultaneously, and equals 100 when none holds. -/
theorem calculateClassScore_spec (co2 temp humidity lux noise : ℚ) :
    calculateClassScore (some co2) (some temp) (some humidity) (some lux) (some noise) =
      max (100 - ((if 1000 < co2 then (20 : ℤ) else 0) +
                  (if 35 < temp then 15 else 0) +
                  (if 80 < humidity then 10 else 0) +
                  (if lux < 300 then 15 else 0) +
                  (if 70 < noise then 20 else 0))) 0 ∧
    0 ≤ calculateClassScore (some co2) (some temp) (some humidity) (some lux) (some noise) ∧
    calculateClassScore (some co2) (some temp) (some humidity) (some lux) (some noise) ≤ 100 ∧
    (1000 < co2 → 35 < temp → 80 < humidity → lux < 300 → 70 < noise →
      calculateClassScore (some co2) (some temp) (some humidity) (some lux) (some noise) = 20) ∧
    (co2 ≤ 1000 → temp ≤ 35 → humidity ≤ 80 → 300 ≤ lux → noise ≤ 70 →
      calculateClassScore (some co2) (some temp) (some humidity) (some lux) (some noise) = 100) := by
  simp only [calculateClassScore, fgt, flt, CO2_THRESHOLD, TEMP_THRESHOLD,
    HUMIDITY_THRESHOLD, LUX_THRESHOLD, NOISE_THRESHOLD, decide_eq_true_eq]
  split_ifs <;>
    refine ⟨by decide, by decide, by decide, ?_, ?_⟩ <;> intros <;>
      first
        | decide
        | linarith

/-- Witness for C1: all five penalty conditions firing at a concrete input
gives exactly 20. -/
theorem calculateClassScore_spec_witness :
    calculateClassScore (some 1200) (some 36) (some 90) (some 100) (some 80) = 20 :=
  (calculateClassScore_spec 1200 36 90 100 80).2.2.2.1
    (by norm_num) (by norm_num) (by norm_num) (by norm_num) (by norm_num)

/-- C2: `calculateAQI` always yields a value in {0, 1, 2, 3, 4}, is
monotonically non-decreasing, implements the 5-level step function with
strict less-than comparisons (edge values in the upper bucket), and takes
the stated values at 599, 600, 1999 and 2000. -/
theorem calculateAQI_spec (p q : ℚ) (hpq : p ≤ q) :
    (calculateAQI p = 0 ∨ calculateAQI p = 1 ∨ calculateAQI p = 2 ∨
      calculateAQI p = 3 ∨ calculateAQI p = 4) ∧
    calculateAQI p ≤ calculateAQI q ∧
    (p < 600 → calculateAQI p = 0) ∧
    (600 ≤ p → p < 1000 → calculateAQI p = 1) ∧
    (1000 ≤ p → p < 1500 → calculateAQI p = 2) ∧
    (1500 ≤ p → p < 2000 → calculateAQI p = 3) ∧
    (2000 ≤ p → calculateAQI p = 4) ∧
    calculateAQI 599 = 0 ∧ calculateAQI 600 = 1 ∧
    calculateAQI 1999 = 3 ∧ calculateAQI 2000 = 4 := by
  refine ⟨?_, ?_, ?_, ?_, ?_, ?_, ?_, by decide, by decide, by decide, by decide⟩ <;>
    simp only [calculateAQI] <;> split_ifs <;> intros <;>
      first
        | decide
        | linarith

/-- Witness for C2 at p = 599, q = 600. -/
theorem calculateAQI_spec_witness :
    calculateAQI 599 ≤ calculateAQI 600 ∧ calculateAQI 599 = 0 :=
  ⟨(calculateAQI_spec 599 600 (by norm_num)).2.1,
   (calculateAQI_spec 599 600 (by norm_num)).2.2.1 (by norm_num)⟩

/-- C5 (amended): for every raw gas reading r in [0, 4095] the mapped ppm
value is in [300, 10000], equals the truncated linear interpolation
`r * 9700 / 4095 + 300` (integer division), is monotonically
non-decreasing, and hits the endpoints 300 at r = 0 and 10000 at r = 4095.
It is not exactly affine in r because of the integer truncation. -/
theorem mapCO2_spec (r : ℕ) (hr : r ≤ 4095) :
    300 ≤ mapCO2 r ∧ mapCO2 r ≤ 10000 ∧
    mapCO2 r = ((r * 9700 / 4095 : ℕ) : ℤ) + 300 ∧
    (∀ s : ℕ, s ≤ r → mapCO2 s ≤ mapCO2 r) ∧
    mapCO2 0 = 300 ∧ mapCO2 4095 = 10000 := by
  refine ⟨?_, ?_, mapCO2_eq r, ?_, by decide, by decide⟩
  · rw [mapCO2_eq r]
    omega
  · rw [mapCO2_eq r]
    have hb : r * 9700 / 4095 ≤ 9700 := by
      have hm : r * 9700 ≤ 4095 * 9700 := Nat.mul_le_mul_right _ hr
      calc r * 9700 / 4095 ≤ 4095 * 9700 / 4095 := Nat.div_le_div_right hm
        _ = 9700 := by norm_num
    omega
  · intro s hs
    rw [mapCO2_eq s, mapCO2_eq r]
    have hd : s * 9700 / 4095 ≤ r * 9700 / 4095 :=
      Nat.div_le_div_right (Nat.mul_le_mul_right _ hs)
    omega

/-- Witness for C5 (amended) at r = 2048. -/
theorem mapCO2_spec_witness :
    300 ≤ mapCO2 2048 ∧ mapCO2 2048 ≤ 10000 :=
  ⟨(mapCO2_spec 2048 (by norm_num)).1, (mapCO2_spec 2048 (by norm_num)).2.1⟩

/-- Counterexample for C5 as stated: the mapped values at r = 0, 1, 2, 3
are 300, 302, 304, 307 (first differences 2, 2, 3), so no affine (exactly
linear) function of r agrees with the mapping on [0, 4095]. -/
theorem mapCO2_not_affine :
    ¬ ∃ a b : ℚ, ∀ r : ℕ, r ≤ 4095 → ((mapCO2 r : ℤ) : ℚ) = a * r + b := by
  rintro ⟨a, b, h⟩
  have e0 : mapCO2 0 = 300 := by decide
  have e1 : mapCO2 1 = 302 := by decide
  have e2 : mapCO2 2 = 304 := by decide
  have e3 : mapCO2 3 = 307 := by decide
  have h0 := h 0 (by norm_num)
  have h1 := h 1 (by norm_num)
  have h2 := h 2 (by norm_num)
  have h3 := h 3 (by norm_num)
  rw [e0] at h0
  rw [e1] at h1
  rw [e2] at h2
  rw [e3] at h3
  push_cast at h0 h1 h2 h3
  linarith

/-- C3: for every inbound command payload, a valid payload sets exactly the
actuators whose keys are present (truthiness = ON) and leaves absent keys'
actuators unchanged; a malformed payload (`none`) leaves all three
actuator states unchanged, with no error surfaced. -/
theorem controlDevices_spec (cmd : Command) (s : PinState) :
    controlDevices none s = s ∧
    (∀ b, cmd.fan = some b → fanIsOn (controlDevices (some cmd) s) = b) ∧
    (∀ b, cmd.light = some b → lightIsOn (controlDevices (some cmd) s) = b) ∧
    (∀ b, cmd.buzzer = some b → buzzerIsOn (controlDevices (some cmd) s) = b) ∧
    (cmd.fan = none → (controlDevices (some cmd) s).fan = s.fan) ∧
    (cmd.light = none → (controlDevices (some cmd) s).light = s.light) ∧
    (cmd.buzzer = none → (controlDevices (some cmd) s).buzzer = s.buzzer) ∧
    controlDevices (some { fan := some true, light := none, buzzer := none }) s =
      { s with fan := PinLevel.LOW } := by
  obtain ⟨f, l, bz⟩ := cmd
  rcases f with _ | bf <;> rcases l with _ | bl <;> rcases bz with _ | bb <;>
    simp_all [controlDevices, fanIsOn, lightIsOn, buzzerIsOn]

/-- Witness for C3: the payload setting only `fan` to true turns the fan
ON and leaves the light pin as it was. -/
theorem controlDevices_spec_witness :
    fanIsOn (controlDevices
      (some { fan := some true, light := none, buzzer := none }) setupPins) = true ∧
    (controlDevices (some { fan := some true, light := none, buzzer := none })
      setupPins).light = setupPins.light :=
  ⟨(controlDevices_spec { fan := some true, light := none, buzzer := none }
      setupPins).2.1 true rfl,
   (controlDevices_spec { fan := some true, light := none, buzzer := none }
      setupPins).2.2.2.2.2.1 rfl⟩

/-- C10: a command that sets an actuator ON drives the relay pins LOW
(active low) but the buzzer pin HIGH; this matches the boot-time initial
state of `setup()` where both relay pins are HIGH (off) and the buzzer pin
LOW (off), so logical ON is pin LOW for the relays and pin HIGH for the
buzzer. -/
theorem pinPolarity_spec (cmd : Command) (s : PinState) :
    setupPins.fan = PinLevel.HIGH ∧ setupPins.light = PinLevel.HIGH ∧
    setupPins.buzzer = PinLevel.LOW ∧
    fanIsOn setupPins = false ∧ lightIsOn setupPins = false ∧
    buzzerIsOn setupPins = false ∧
    (cmd.fan = some true → (controlDevices (some cmd) s).fan = PinLevel.LOW) ∧
    (cmd.light = some true → (controlDevices (some cmd) s).light = PinLevel.LOW) ∧
    (cmd.buzzer = some true → (controlDevices (some cmd) s).buzzer = PinLevel.HIGH) := by
  obtain ⟨f, l, bz⟩ := cmd
  rcases f with _ | bf <;> rcases l with _ | bl <;> rcases bz with _ | bb <;>
    simp_all [controlDevices, setupPins, fanIsOn, lightIsOn, buzzerIsOn]

/-- Witness for C10: the all-ON command drives fan LOW, light LOW,
buzzer HIGH from the boot state. -/
theorem pinPolarity_spec_witness :
    (controlDevices (some (Command.mk (some true) (some true) (some true)))
      setupPins).fan = PinLevel.LOW ∧
    (controlDevices (some (Command.mk (some true) (some true) (some true)))
      setupPins).buzzer = PinLevel.HIGH :=
  ⟨(pinPolarity_spec (Command.mk (some true) (some true) (some true))
      setupPins).2.2.2.2.2.2.1 rfl,
   (pinPolarity_spec (Command.mk (some true) (some true) (some true))
      setupPins).2.2.2.2.2.2.2.2 rfl⟩

/-- C7: on every iteration `autoControlDevices` sets the fan ON exactly
when temperature > 35 (else OFF) and the light ON exactly when lux < 300
(else OFF), independently of the previous pin state (idempotent level
set); the buzzer pin is not held — only a one-shot fixed-duration tone
fires, exactly when noise > 70.  At temperature 36, lux 250, noise 75 the
fan and light turn ON and the buzzer fires. -/
theorem autoControlDevices_spec (temp : FQ) (lux : ℚ) (noise : FQ) (s : PinState) :
    ((autoControlDevices temp lux noise s).1.fan = PinLevel.LOW ↔
      fgt temp TEMP_THRESHOLD = true) ∧
    ((autoControlDevices temp lux noise s).1.light = PinLevel.LOW ↔
      lux < LUX_THRESHOLD) ∧
    ((autoControlDevices temp lux noise s).2 = true ↔
      fgt noise NOISE_THRESHOLD = true) ∧
    (autoControlDevices temp lux noise s).1.buzzer = s.buzzer ∧
    (∀ s2 : PinState,
      (autoControlDevices temp lux noise s2).1.fan =
        (autoControlDevices temp lux noise s).1.fan ∧
      (autoControlDevices temp lux noise s2).1.light =
        (autoControlDevices temp lux noise s).1.light) ∧
    (autoControlDevices (some 36) 250 (some 75) s).1.fan = PinLevel.LOW ∧
    (autoControlDevices (some 36) 250 (some 75) s).1.light = PinLevel.LOW ∧
    (autoControlDevices (some 36) 250 (some 75) s).2 = true := by
  refine ⟨?_, ?_, ?_, ?_, fun s2 => ⟨?_, ?_⟩, by rfl, by rfl, by rfl⟩ <;>
    simp only [autoControlDevices] <;> split_ifs <;> simp_all

/-- Witness for C7: the boot state with temperature 36, lux 250, noise 75
gives fan ON. -/
theorem autoControlDevices_spec_witness :
    (autoControlDevices (some 36) 250 (some 75) setupPins).1.fan = PinLevel.LOW :=
  (autoControlDevices_spec (some 36) 250 (some 75) setupPins).2.2.2.2.2.1

/-- C4: when the climate read of temperature (resp. humidity) is NaN, the
snapshot omits that field (it is not written as zero), and the
corresponding threshold penalty is not applied to the class score that
cycle: the score consists of only the other four potential penalties. -/
theorem readSensors_nan_spec (mq135Value : ℕ) (temp humidity : FQ)
    (lux : ℚ) (noiseDB : ℚ) :
    (readSensors mq135Value none humidity lux noiseDB).temperature = none ∧
    (readSensors mq135Value temp none lux noiseDB).humidity = none ∧
    (readSensors mq135Value none humidity lux noiseDB).class_score =
      max (100 - ((if 1000 < (mapCO2 mq135Value : ℚ) then (20 : ℤ) else 0) +
                  (if fgt humidity HUMIDITY_THRESHOLD then 10 else 0) +
                  (if lux < 300 then 15 else 0) +
                  (if 70 < noiseDB then 20 else 0))) 0 ∧
    (readSensors mq135Value temp none lux noiseDB).class_score =
      max (100 - ((if 1000 < (mapCO2 mq135Value : ℚ) then (20 : ℤ) else 0) +
                  (if fgt temp TEMP_THRESHOLD then 15 else 0) +
                  (if lux < 300 then 15 else 0) +
                  (if 70 < noiseDB then 20 else 0))) 0 := by
  refine ⟨rfl, rfl, ?_, ?_⟩ <;>
    simp only [readSensors, calculateClassScore, fgt_none, flt_none, fgt_some,
      flt_some, CO2_THRESHOLD, TEMP_THRESHOLD, HUMIDITY_THRESHOLD,
      LUX_THRESHOLD, NOISE_THRESHOLD, decide_eq_true_eq, Bool.false_eq_true,
      if_false] <;>
      split_ifs <;> decide

/-- Witness for C4: with a NaN temperature, humidity 90, lux 250 and
noise 75, the score drops only by the humidity, lux and noise penalties
(10 + 15 + 20), never by the temperature penalty. -/
theorem readSensors_nan_spec_witness :
    (readSensors 0 none (some 90) 250 75).temperature = none ∧
    (readSensors 0 none (some 90) 250 75).class_score = 55 := by
  refine ⟨(readSensors_nan_spec 0 none (some 90) 250 75).1, ?_⟩
  rw [(readSensors_nan_spec 0 none (some 90) 250 75).2.2.1]
  decide

/-- Helper: the Arduino `constrain` macro with bounds 30 and 120 is the
clamp `max 30 (min 120 amt)`. -/
theorem constrainR_eq (amt : ℝ) : constrainR amt 30 120 = max 30 (min 120 amt) := by
  unfold constrainR
  rcases lt_or_le amt 30 with h | h
  · rw [if_pos h]
    exact (max_eq_left (le_trans (min_le_right _ _) h.le)).symm
  · rw [if_neg (not_lt.mpr h)]
    rcases lt_or_le 120 amt with h2 | h2
    · rw [if_pos h2, min_eq_left h2.le]
      exact (max_eq_right (by norm_num)).symm
    · rw [if_neg (not_lt.mpr h2), min_eq_right h2]
      exact (max_eq_right h).symm

/-- C6: for every mic reading whose derived voltage is positive, the noise
level is `clamp(20 * log10(v / 0.00631), 30, 120)`, and for every reading
whatsoever the result lies in [30, 120]. -/
theorem calculateNoiseLevel_spec (micValue : ℤ)
    (hv : 0 < (micValue : ℝ) * (3.3 / 4095)) :
    calculateNoiseLevel micValue =
      max 30 (min 120
        (20 * Real.logb 10 (((micValue : ℝ) * (3.3 / 4095)) / 0.00631))) ∧
    (∀ m : ℤ, 30 ≤ calculateNoiseLevel m ∧ calculateNoiseLevel m ≤ 120) := by
  refine ⟨constrainR_eq _, fun m => ?_⟩
  unfold calculateNoiseLevel
  rw [constrainR_eq]
  constructor
  · exact le_max_left _ _
  · exact max_le (by norm_num) (min_le_left _ _)

/-- Witness for C6 at micValue = 2048 (positive voltage). -/
theorem calculateNoiseLevel_spec_witness :
    30 ≤ calculateNoiseLevel 2048 ∧ calculateNoiseLevel 2048 ≤ 120 :=
  (calculateNoiseLevel_spec 2048 (by norm_num)).2 2048

/-- Helper: within one wraparound period of a monotone clock, the
`unsigned long` subtraction is ordinary subtraction. -/
theorem usub_sub (a b : ℕ) (hba : b ≤ a) (hw : a - b < ULONG_MOD) :
    usub a b = a - b := by
  unfold usub ULONG_MOD
  unfold ULONG_MOD at hw
  omega

/-- C8: in every main-loop iteration a snapshot is built and published
exactly when `now - lastPublish >= 5000` on the millisecond clock;
`lastPublish` is then set to `now` whether or not the broker publish
succeeded (the publish result is not consulted), so a failed publish is
not retried within the cycle and at least 5000 ms elapse before the next
publish attempt. -/
theorem loopPublishGate_spec (now lastPublish : ℕ) (ok ok2 : Bool)
    (hmono : lastPublish ≤ now) (hw : now - lastPublish < ULONG_MOD) :
    ((loopPublishGate now ok lastPublish).2 = true ↔
      5000 ≤ now - lastPublish) ∧
    (loopPublishGate now ok lastPublish).1 =
      (if 5000 ≤ now - lastPublish then now else lastPublish) ∧
    loopPublishGate now ok lastPublish = loopPublishGate now ok2 lastPublish ∧
    (∀ next : ℕ, now ≤ next → next - now < ULONG_MOD →
      (loopPublishGate next ok2 now).2 = true → 5000 ≤ next - now) := by
  have h1 : usub now lastPublish = now - lastPublish := usub_sub now lastPublish hmono hw
  refine ⟨?_, ?_, rfl, ?_⟩
  · simp only [loopPublishGate, h1, publishInterval]
    split_ifs with h <;> simp [h]
  · simp only [loopPublishGate, h1, publishInterval]
    split_ifs <;> rfl
  · intro next h2 h3 hp
    have h4 : usub next now = next - now := usub_sub next now h2 h3
    simp only [loopPublishGate, h4, publishInterval] at hp
    split_ifs at hp with h5
    all_goals exact h5

/-- Witness for C8: at now = 6000 with lastPublish = 0 the gate publishes. -/
theorem loopPublishGate_spec_witness : (loopPublishGate 6000 false 0).2 = true :=
  ((loopPublishGate_spec 6000 0 false true (by decide) (by decide)).1).mpr
    (by decide)

/-- Helper: a trace of attempts that all fail leaves `connectMQTT` still
looping (no attempt cap, no exit without a success). -/
theorem connectMQTT_allFalse (tr : List (ℕ × Bool))
    (h : ∀ p ∈ tr, p.2 = false) : connectMQTT tr = none := by
  induction tr with
  | nil => rfl
  | cons hd tl ih =>
    obtain ⟨r0, b0⟩ := hd
    have hb : b0 = false := h (r0, b0) (List.mem_cons_self _ _)
    subst hb
    simp [connectMQTT, ih (fun p hp => h p (List.mem_cons_of_mem _ hp))]

/-- Helper: after k failed attempts and one successful one, `connectMQTT`
returns with k + 1 attempts, 2000 ms of backoff per failure, having
subscribed, under the client identifier drawn on the successful attempt. -/
theorem connectMQTT_firstSuccess (pre : List (ℕ × Bool)) (randomValue : ℕ)
    (hpre : ∀ p ∈ pre, p.2 = false) :
    connectMQTT (pre ++ [(randomValue, true)]) =
      some { attempts := pre.length + 1, delayMs := 2000 * pre.length,
             subscribed := true, finalClientId := clientId randomValue } := by
  induction pre with
  | nil => rfl
  | cons hd tl ih =>
    obtain ⟨r0, b0⟩ := hd
    have hb : b0 = false := hpre (r0, b0) (List.mem_cons_self _ _)
    subst hb
    simp [connectMQTT, ih (fun p hp => hpre p (List.mem_cons_of_mem _ hp))]
    all_goals omega

/-- C9: while the broker connection is down `connectMQTT` retries forever:
any all-failure trace leaves it looping (no attempt cap), and on the first
successful attempt — after k failures, each followed by a fixed 2000 ms
backoff — it subscribes and returns, using the client identifier generated
from that attempt's random draw. -/
theorem connectMQTT_spec (pre : List (ℕ × Bool)) (randomValue : ℕ)
    (hpre : ∀ p ∈ pre, p.2 = false) :
    connectMQTT (pre ++ [(randomValue, true)]) =
      some { attempts := pre.length + 1, delayMs := 2000 * pre.length,
             subscribed := true, finalClientId := clientId randomValue } ∧
    (∀ tr : List (ℕ × Bool), (∀ p ∈ tr, p.2 = false) → connectMQTT tr = none) :=
  ⟨connectMQTT_firstSuccess pre randomValue hpre, connectMQTT_allFalse⟩

/-- Witness for C9: two failures then a success gives 3 attempts and
4000 ms of backoff. -/
theorem connectMQTT_spec_witness :
    connectMQTT [(1, false), (2, false), (7, true)] =
      some { attempts := 3, delayMs := 4000, subscribed := true,
             finalClientId := clientId 7 } :=
  (connectMQTT_spec [(1, false), (2, false)] 7 (by decide)).1

end ClassGuard
